import Mathlib

/- Shallow embedding of the Udyoga Mitra job-matching dashboards
   (StudentDashboard.tsx, EmployerDashboard.tsx, the earlier StudentDashboard
   revision, and the ProfileSetup wizard), together with theorems settling the
   specification claims about the skill-matching filter, the job-request
   workflow, job deletion, and profile creation.  Database tables are modelled
   as lists of rows; each dashboard handler becomes a pure function from the
   relevant state (and the outcomes of its store calls) to the new state, the
   emitted queries and the emitted notifications. -/

namespace Udyoga

/-- Model of the JavaScript toLowerCase call used by the matching filter:
characterwise lowercasing of the string. -/
def toLowerCase (s : String) : String := ⟨s.data.map Char.toLower⟩

/-- The skill-matching predicate of StudentDashboard.fetchJobs (lines 119-127):
the job passes when some required job-skill name equals some student skill
name after lowercasing both sides. -/
def hasMatchingSkill (studentSkills jobSkills : List String) : Bool :=
  jobSkills.any fun jobSkill =>
    studentSkills.any fun studentSkill =>
      toLowerCase studentSkill == toLowerCase jobSkill

/-- Modelled from the spec: the substring-aware case-insensitive overlap of the
permissive matching contract in section 4.1 (some element of J is a
case-insensitive substring of, or superstring of, some element of S).  This
predicate appears in no source file under src; it only states the premise of
the permissive-policy claims. -/
def specSubstringOverlap (S J : List String) : Bool :=
  J.any fun j => S.any fun s =>
    decide ((toLowerCase j).data <:+: (toLowerCase s).data) ||
    decide ((toLowerCase s).data <:+: (toLowerCase j).data)

/-- A row of the jobs query result as the student dashboards see it: the job
row joined with the names of its required skills (job_skills -> skills). -/
structure Job where
  id : String
  employer_id : String
  status : String
  skills : List String
deriving Repr, DecidableEq

/-- A user-facing notification (the toast calls in the dashboards). -/
structure Toast where
  title : String
  description : String
deriving Repr, DecidableEq

/-- The toast shown by both student dashboards when the jobs query fails. -/
def failedFetchToast : Toast := ⟨"Error", "Failed to fetch jobs"⟩

/-- Result of one fetchJobs run: how many store queries were issued, the jobs
list held by the view afterwards, the loading flag, and the toasts shown. -/
structure FetchResult where
  queriesIssued : Nat
  jobs : List Job
  isLoading : Bool
  toasts : List Toast
deriving Repr, DecidableEq

/-- fetchJobs of the skill-matching StudentDashboard (lines 82-133): with no
recorded skills it clears the jobs list without querying; otherwise it issues
one query for active jobs and, on success, keeps exactly the jobs for which
hasMatchingSkill holds; on error it leaves the previous jobs list in place and
shows one error toast.  The response argument is the outcome the store gives
to the single query, when one is issued. -/
def fetchJobsMatching (studentSkills : List String) (prev : List Job)
    (response : Except String (List Job)) : FetchResult :=
  if studentSkills.length = 0 then
    { queriesIssued := 0, jobs := [], isLoading := false, toasts := [] }
  else
    match response with
    | Except.error _ =>
        { queriesIssued := 1, jobs := prev, isLoading := false,
          toasts := [failedFetchToast] }
    | Except.ok data =>
        { queriesIssued := 1,
          jobs := data.filter (fun job => hasMatchingSkill studentSkills job.skills),
          isLoading := false, toasts := [] }

/-- fetchJobs of the earlier StudentDashboard revision (lines 49-68 of that
file): it issues one query for active jobs and displays the result with no
skill filtering at all; on error the previous jobs list is kept and one error
toast is shown. -/
def fetchJobsEarly (prev : List Job) (response : Except String (List Job)) :
    FetchResult :=
  match response with
  | Except.error _ =>
      { queriesIssued := 1, jobs := prev, isLoading := false,
        toasts := [failedFetchToast] }
  | Except.ok data =>
      { queriesIssued := 1, jobs := data, isLoading := false, toasts := [] }

/-- A row of the job_requests table. -/
structure JobRequestRow where
  id : String
  job_id : String
  student_id : String
  message : String
  status : String
deriving Repr, DecidableEq

/-- The application message inserted by handleApplyJob of the skill-matching
StudentDashboard. -/
def studentApplyMessage : String :=
  "I am interested in this position and would like to apply. I believe my skills match the job requirements."

/-- The application message inserted by handleApplyJob of the earlier
StudentDashboard revision. -/
def earlyApplyMessage : String :=
  "I am interested in this position and would like to apply."

/-- The offer message inserted by sendJobRequest of the EmployerDashboard. -/
def employerOfferMessage : String :=
  "We would like to offer you this position based on your skills match."

/-- handleApplyJob of the skill-matching StudentDashboard (lines 157-194): the
prior read is the cached jobRequests list (fetched for this student); when it
finds a request with the same job id the handler returns without touching the
table, otherwise it inserts one row with status pending.  The newId argument
is the row id the store assigns to the insert. -/
def handleApplyJob (cachedRequests table : List JobRequestRow)
    (uid jobId newId : String) : List JobRequestRow :=
  match cachedRequests.find? (fun req => req.job_id == jobId) with
  | some _ => table
  | none => table ++ [⟨newId, jobId, uid, studentApplyMessage, "pending"⟩]

/-- Model of the single() prior read issued by sendJobRequest: the store
returns the row when exactly one row matches the (job, student) pair, and
errors with null data when zero or two or more rows match; the caller discards
the error, so its existingRequest variable is non-null exactly in the
one-row case. -/
def singleRead (table : List JobRequestRow) (jobId studentId : String) :
    Option JobRequestRow :=
  match table.filter fun r => r.job_id == jobId && r.student_id == studentId with
  | [r] => some r
  | _ => none

/-- sendJobRequest of the EmployerDashboard (lines 289-339): the prior read
queries the job_requests table for the (job, student) pair with single() and
ignores its error; when that read yields a row (exactly one match) the handler
returns without inserting, otherwise — zero matches, but also two or more
duplicate matches — it inserts one row with status pending. -/
def sendJobRequest (table : List JobRequestRow) (jobId studentId newId : String) :
    List JobRequestRow :=
  match singleRead table jobId studentId with
  | some _ => table
  | none => table ++ [⟨newId, jobId, studentId, employerOfferMessage, "pending"⟩]

/-- handleApplyJob of the earlier StudentDashboard revision (lines 86-109 of
that file): no prior read is performed; the insert with status pending is
issued unconditionally. -/
def handleApplyJobEarly (table : List JobRequestRow) (uid jobId newId : String) :
    List JobRequestRow :=
  table ++ [⟨newId, jobId, uid, earlyApplyMessage, "pending"⟩]

/-- The update issued by the respond handlers: set the status column of the
row whose id matches.  Both handleRequestResponse in the EmployerDashboard and
handleAcceptJobRequest / handleRejectJobRequest in the StudentDashboard issue
exactly this unconditional update. -/
def updateStatus (table : List JobRequestRow) (requestId status : String) :
    List JobRequestRow :=
  table.map fun r => if r.id == requestId then { r with status := status } else r

/-- The toast shown by handleRequestResponse when the update fails. -/
def failedUpdateToast : Toast := ⟨"Error", "Failed to update request"⟩

/-- Result of one respond run: how many store updates were issued, whether the
requests view was refetched, the job_requests table afterwards, and the toasts
shown. -/
structure RespondResult where
  updatesIssued : Nat
  refetched : Bool
  table : List JobRequestRow
  toasts : List Toast
deriving Repr, DecidableEq

/-- handleRequestResponse of the EmployerDashboard (lines 341-361): one
unconditional status update on the addressed row; on store error the table is
untouched, no refetch happens and one error toast is shown; on success the
requests view is refetched and a success toast names the new status. -/
def handleRequestResponse (table : List JobRequestRow) (requestId status : String)
    (storeError : Bool) : RespondResult :=
  if storeError then
    { updatesIssued := 1, refetched := false, table := table,
      toasts := [failedUpdateToast] }
  else
    { updatesIssued := 1, refetched := true,
      table := updateStatus table requestId status,
      toasts := [⟨"Success", "Request " ++ status ++ " successfully"⟩] }

/-- A row of the jobs table (normalized, without the skills join). -/
structure JobRow where
  id : String
  employer_id : String
  status : String
deriving Repr, DecidableEq

/-- A row of the job_skills link table. -/
structure JobSkillRow where
  job_id : String
  skill_id : String
deriving Repr, DecidableEq

/-- The tables touched by job deletion. -/
structure MarketDB where
  jobs : List JobRow
  job_skills : List JobSkillRow
  job_requests : List JobRequestRow
deriving Repr, DecidableEq

/-- handleDeleteJob of the EmployerDashboard (lines 246-278), after the
confirmation dialog: first delete all job_skills rows with the given job id,
then delete the jobs row whose id matches and whose employer_id is the caller;
the job_requests table is never touched. -/
def handleDeleteJob (uid jobId : String) (db : MarketDB) : MarketDB :=
  let db1 := { db with job_skills := db.job_skills.filter fun l => !(l.job_id == jobId) }
  { db1 with jobs := db1.jobs.filter fun j => !(j.id == jobId && j.employer_id == uid) }

/-- The form data collected by the ProfileSetup wizard.  The age field is kept
as the raw string the form holds; the parseInt conversion done at insert time
is elided since no claim depends on the parsed value. -/
structure ProfileData where
  fullName : String
  age : String
  phoneNumber : String
  aadhaarCard : String
  address : String
  collegeId : String
  jobAvailabilityHours : String
  businessName : String
  businessAddress : String
  jobTypeProvided : String
deriving Repr, DecidableEq

/-- A row of the profiles table. -/
structure ProfileRow where
  id : String
  full_name : String
  age : String
  phone_number : String
  aadhaar_card : String
  user_type : String
deriving Repr, DecidableEq

/-- A row of the student_profiles table. -/
structure StudentProfileRow where
  id : String
  address : String
  college_id : String
  job_availability_hours : String
deriving Repr, DecidableEq

/-- A row of the employer_profiles table. -/
structure EmployerProfileRow where
  id : String
  business_name : String
  business_address : String
  job_type_provided : String
deriving Repr, DecidableEq

/-- A row of the skills catalog table. -/
structure SkillRow where
  id : String
  name : String
deriving Repr, DecidableEq

/-- A row of the student_skills link table. -/
structure StudentSkillRow where
  student_id : String
  skill_id : String
deriving Repr, DecidableEq

/-- The tables touched by profile creation. -/
structure OnboardDB where
  profiles : List ProfileRow
  student_profiles : List StudentProfileRow
  student_skills : List StudentSkillRow
  employer_profiles : List EmployerProfileRow
deriving Repr, DecidableEq

/-- Which of the store calls inside handleSubmit fail.  A failed insert leaves
its table unchanged and makes the call return an error. -/
structure SubmitFailures where
  profileIns : Bool
  studentIns : Bool
  skillsSel : Bool
  skillsIns : Bool
  employerIns : Bool
deriving Repr, DecidableEq

/-- Result of one handleSubmit run: the database afterwards, whether
onComplete ran (success toast) and whether an error toast was shown. -/
structure SubmitResult where
  db : OnboardDB
  completed : Bool
  errorShown : Bool
deriving Repr, DecidableEq

/-- The profiles row handleSubmit inserts. -/
def mkProfileRow (uid userType : String) (pd : ProfileData) : ProfileRow :=
  ⟨uid, pd.fullName, pd.age, pd.phoneNumber, pd.aadhaarCard, userType⟩

/-- handleSubmit of the ProfileSetup wizard (both revisions share this control
flow): insert the profiles row; for a student insert the student_profiles row
and then, when skills were selected, resolve their ids from the catalog and
insert the student_skills rows; for an employer insert the employer_profiles
row.  Each failing step throws into the catch block, which shows an error
toast; no step ever deletes rows inserted by an earlier step. -/
def handleSubmit (db : OnboardDB) (uid userType : String) (pd : ProfileData)
    (selectedSkills : List String) (skillsCatalog : List SkillRow)
    (fails : SubmitFailures) : SubmitResult :=
  if fails.profileIns then
    { db := db, completed := false, errorShown := true }
  else
    let db1 := { db with profiles := db.profiles ++ [mkProfileRow uid userType pd] }
    if userType == "student" then
      if fails.studentIns then
        { db := db1, completed := false, errorShown := true }
      else
        let db2 := { db1 with student_profiles :=
          db1.student_profiles ++ [⟨uid, pd.address, pd.collegeId, pd.jobAvailabilityHours⟩] }
        if selectedSkills.length = 0 then
          { db := db2, completed := true, errorShown := false }
        else if fails.skillsSel then
          { db := db2, completed := false, errorShown := true }
        else
          let skillsData := skillsCatalog.filter fun s => selectedSkills.contains s.name
          let rows := skillsData.map fun s => (⟨uid, s.id⟩ : StudentSkillRow)
          if fails.skillsIns then
            { db := db2, completed := false, errorShown := true }
          else
            { db := { db2 with student_skills := db2.student_skills ++ rows },
              completed := true, errorShown := false }
    else
      if fails.employerIns then
        { db := db1, completed := false, errorShown := true }
      else
        { db := { db1 with employer_profiles :=
            db1.employer_profiles ++ [⟨uid, pd.businessName, pd.businessAddress, pd.jobTypeProvided⟩] },
          completed := true, errorShown := false }

/-- The form state of the job-posting dialog, reduced to the fields
handleJobSubmit reads: the three validated text fields and the selected skill
names. -/
structure JobForm where
  title : String
  description : String
  payRate : String
  selectedSkills : List String
deriving Repr, DecidableEq

/-- The toast shown when the job-dialog validation fails. -/
def requiredFieldsToast : Toast := ⟨"Error", "Please fill in all required fields"⟩

/-- The toast shown when the job insert fails. -/
def failedCreateJobToast : Toast := ⟨"Error", "Failed to create job"⟩

/-- The toast shown when handleJobSubmit reaches its success path. -/
def jobPostedToast : Toast := ⟨"Success", "Job posted successfully!"⟩

/-- Result of one handleJobSubmit run: the jobs and job_skills tables
afterwards, the toasts shown, and whether the jobs view was refetched. -/
structure JobSubmitResult where
  jobs : List JobRow
  job_skills : List JobSkillRow
  toasts : List Toast
  refetched : Bool
deriving Repr, DecidableEq

/-- handleJobSubmit of the EmployerDashboard (lines 170-244): empty required
fields stop with an error toast; a failing jobs insert stops with an error
toast; otherwise the job row is inserted and, when skills are selected, their
ids are resolved and the job_skills insert is issued with its error IGNORED
(the await carries no error check), after which the success toast is shown and
the jobs view refetched unconditionally.  The two failure flags give the
outcomes of the jobs insert and of the job_skills insert. -/
def handleJobSubmit (db : MarketDB) (uid newJobId : String) (form : JobForm)
    (skillsCatalog : List SkillRow) (jobInsFails skillsInsFails : Bool) :
    JobSubmitResult :=
  if form.title == "" || form.description == "" || form.payRate == "" then
    { jobs := db.jobs, job_skills := db.job_skills,
      toasts := [requiredFieldsToast], refetched := false }
  else if jobInsFails then
    { jobs := db.jobs, job_skills := db.job_skills,
      toasts := [failedCreateJobToast], refetched := false }
  else
    let jobs1 := db.jobs ++ [⟨newJobId, uid, ("active")⟩]
    let skillRows :=
      if form.selectedSkills.length = 0 then []
      else if skillsInsFails then []
      else (skillsCatalog.filter fun s => form.selectedSkills.contains s.name).map
        fun s => (⟨newJobId, s.id⟩ : JobSkillRow)
    { jobs := jobs1, job_skills := db.job_skills ++ skillRows,
      toasts := [jobPostedToast], refetched := true }

/-- Claim C1, counterexample: the substring-aware premise does not make the
shipped matching filter return true.  The lowercased job-skill name is an
infix of the lowercased student-skill name, yet hasMatchingSkill, which tests
exact case-insensitive equality only, returns false, so the job is hidden. -/
theorem substring_overlap_does_not_imply_shown :
    specSubstringOverlap [("Data Entry Pro")] [("Data Entry")] = true
    ∧ hasMatchingSkill [("Data Entry Pro")] [("Data Entry")] = false := by
  decide

/-- Claim C1, amended: for every student skill-name list S and job
required-skill-name list J whose case-insensitive intersection under exact
equality of lowercased names is non-empty, the matching filter returns true
and the job is shown to the student. -/
theorem equal_skill_name_implies_shown (S J : List String) (s j : String)
    (hs : s ∈ S) (hj : j ∈ J) (h : toLowerCase s = toLowerCase j) :
    hasMatchingSkill S J = true := by
  unfold hasMatchingSkill
  rw [List.any_eq_true]
  refine ⟨j, hj, ?_⟩
  rw [List.any_eq_true]
  exact ⟨s, hs, by simp [h]⟩

/-- Claim C1, amended, witness at a concrete instance. -/
theorem equal_skill_name_implies_shown_witness :
    hasMatchingSkill [("Data Entry")] [("data entry")] = true :=
  equal_skill_name_implies_shown [("Data Entry")] [("data entry")]
    ("Data Entry") ("data entry") (by decide) (by decide) (by decide)

/-- Claim C3: the tightened matching filter of the skill-matching dashboard
returns true exactly when some student skill and some required job skill have
equal lowercasings, and it returns false on an empty requirement list. -/
theorem tightened_filter_iff (S J : List String) :
    (hasMatchingSkill S J = true ↔
      ∃ s ∈ S, ∃ j ∈ J, toLowerCase s = toLowerCase j)
    ∧ hasMatchingSkill S [] = false := by
  refine ⟨?_, rfl⟩
  unfold hasMatchingSkill
  simp only [List.any_eq_true, beq_iff_eq]
  constructor
  · rintro ⟨j, hj, s, hs, h⟩
    exact ⟨s, hs, j, hj, h⟩
  · rintro ⟨s, hs, j, hj, h⟩
    exact ⟨j, hj, s, hs, h⟩

/-- The active job of the C8 scenario, requiring data entry and typing. -/
def dataEntryJob : Job := ⟨("j1"), ("e1"), ("active"), [("data entry"), ("Typing")]⟩

/-- Claim C8: a student whose only skill is Data Entry passes the matching
filter for a job requiring data entry and Typing, and fetchJobs displays that
job. -/
theorem data_entry_scenario_shown :
    hasMatchingSkill [("Data Entry")] [("data entry"), ("Typing")] = true
    ∧ (fetchJobsMatching [("Data Entry")] [] (Except.ok [dataEntryJob])).jobs
        = [dataEntryJob] := by
  decide

/-- Claim C10: in the skill-matching dashboard, a student with no recorded
skills is shown no jobs at all and no query is issued, whatever the store
would have answered. -/
theorem no_skills_no_query_no_jobs (prev : List Job)
    (response : Except String (List Job)) :
    (fetchJobsMatching [] prev response).jobs = []
    ∧ (fetchJobsMatching [] prev response).queriesIssued = 0
    ∧ (fetchJobsMatching [] prev response).isLoading = false :=
  ⟨rfl, rfl, rfl⟩

/-- Claim C2: under the permissive early dashboard revision, which applies no
skill filter, every fetched job whose required-skill list is empty is shown to
the student. -/
theorem empty_requirement_shown_in_early_variant (prev data : List Job)
    (job : Job) (hskills : job.skills = []) (hmem : job ∈ data) :
    job ∈ (fetchJobsEarly prev (Except.ok data)).jobs := by
  simpa [fetchJobsEarly] using hmem

/-- A job with an empty required-skill list, for the C2 witness. -/
def noSkillJob : Job := ⟨("j2"), ("e1"), ("active"), []⟩

/-- Claim C2, witness at a concrete instance. -/
theorem empty_requirement_shown_in_early_variant_witness :
    noSkillJob ∈ (fetchJobsEarly [] (Except.ok [noSkillJob])).jobs :=
  empty_requirement_shown_in_early_variant [] [noSkillJob] noSkillJob rfl (by decide)

/-- A pending job request, for the C5 counterexample. -/
def pendingReq : JobRequestRow := ⟨("r1"), ("j1"), ("s1"), ("m"), ("pending")⟩

/-- Claim C5, counterexample: responding accepted and then rejected on the
same request leaves the status at the second outcome, not the first, because
the respond handlers issue an unconditional status update. -/
theorem respond_twice_not_first_outcome :
    ((handleRequestResponse
        (handleRequestResponse [pendingReq] ("r1") ("accepted") false).table
        ("r1") ("rejected") false).table.map JobRequestRow.status = [("rejected")])
    ∧ (("rejected") : String) ≠ ("accepted") := by
  decide

/-- Claim C5, amended: calling respond twice on the same request leaves the
status equal to the second call outcome; the unconditional update of the
respond handlers overwrites the first response, so the double call equals a
single update with the second outcome. -/
theorem respond_twice_second_outcome (table : List JobRequestRow)
    (rid o1 o2 : String) :
    (handleRequestResponse
        (handleRequestResponse table rid o1 false).table rid o2 false).table
      = updateStatus table rid o2 := by
  show updateStatus (updateStatus table rid o1) rid o2 = updateStatus table rid o2
  unfold updateStatus
  rw [List.map_map]
  apply List.map_congr_left
  intro r _
  cases h : r.id == rid
  · simp [Function.comp, h]
  · simp [Function.comp, h]

/-- Claim C9, amended: for the fetch and respond operations the claim cites,
when the store call returns an error, exactly the one original call was issued
(no retry), the previously held view state is kept, and exactly one error
notification is produced.  The universal over every store operation fails
elsewhere: see the handleJobSubmit counterexample below. -/
theorem store_error_no_retry_state_kept :
    (∀ (s : String) (rest : List String) (prev : List Job) (e : String),
      (fetchJobsMatching (s :: rest) prev (Except.error e)).queriesIssued = 1
      ∧ (fetchJobsMatching (s :: rest) prev (Except.error e)).jobs = prev
      ∧ (fetchJobsMatching (s :: rest) prev (Except.error e)).toasts = [failedFetchToast])
    ∧ (∀ (table : List JobRequestRow) (rid st : String),
      (handleRequestResponse table rid st true).updatesIssued = 1
      ∧ (handleRequestResponse table rid st true).table = table
      ∧ (handleRequestResponse table rid st true).refetched = false
      ∧ (handleRequestResponse table rid st true).toasts = [failedUpdateToast]) := by
  constructor
  · intro s rest prev e
    refine ⟨?_, ?_, ?_⟩ <;> simp [fetchJobsMatching]
  · intro table rid st
    exact ⟨rfl, rfl, rfl, rfl⟩

/-- Claim C9, counterexample: not every store operation surfaces its error as
a notification and leaves prior state intact.  In handleJobSubmit the
job_skills insert fails, yet the run shows only the success toast (no error
notification), reports completion, and refetches the jobs view. -/
theorem skills_insert_error_reported_success :
    (handleJobSubmit ⟨[], [], []⟩ ("e1") ("j9") ⟨("T"), ("D"), ("5"), [("Typing")]⟩
        [⟨("k1"), ("Typing")⟩] false true).toasts = [jobPostedToast]
    ∧ (handleJobSubmit ⟨[], [], []⟩ ("e1") ("j9") ⟨("T"), ("D"), ("5"), [("Typing")]⟩
        [⟨("k1"), ("Typing")⟩] false true).refetched = true
    ∧ (handleJobSubmit ⟨[], [], []⟩ ("e1") ("j9") ⟨("T"), ("D"), ("5"), [("Typing")]⟩
        [⟨("k1"), ("Typing")⟩] false true).job_skills = [] := by
  decide

/-- An existing pending request for the pair (j1, s1). -/
def reqJ1 : JobRequestRow := ⟨("r1"), ("j1"), ("s1"), ("m"), ("pending")⟩

/-- A duplicate pending request for the same pair (j1, s1). -/
def reqJ1dup : JobRequestRow := ⟨("r9"), ("j1"), ("s1"), ("m"), ("pending")⟩

/-- Claim C4, counterexample: with two duplicate requests for the (job,
student) pair already in the table — a state the spec flags as reachable — the
single() prior read errors and yields null, so sendJobRequest inserts a third
row even though existing requests for the pair are present: the table is not
left unchanged. -/
theorem duplicate_pair_inserted_again :
    sendJobRequest [reqJ1, reqJ1dup] ("j1") ("s1") ("r3")
      = [reqJ1, reqJ1dup, ⟨("r3"), ("j1"), ("s1"), employerOfferMessage, ("pending")⟩]
    ∧ (∃ r ∈ [reqJ1, reqJ1dup], r.job_id = ("j1") ∧ r.student_id = ("s1")) := by
  decide

/-- Claim C4, amended: for each createRequest operation, when its prior read
finds the pair no insert happens and the table is unchanged; otherwise exactly
one row with status pending is appended.  The student variant's cached read
finds the pair when any cached row carries the job id; the employer variant's
single() read finds the pair exactly when exactly ONE matching row exists, so
with two or more duplicates already present another duplicate is inserted;
the early revision performs no prior read and always inserts. -/
theorem createRequest_guard :
    (∀ (cached table : List JobRequestRow) (uid jobId nid : String),
      ((∃ r ∈ cached, r.job_id = jobId) →
          handleApplyJob cached table uid jobId nid = table)
      ∧ ((¬ ∃ r ∈ cached, r.job_id = jobId) →
          handleApplyJob cached table uid jobId nid
            = table ++ [⟨nid, jobId, uid, studentApplyMessage, ("pending")⟩]))
    ∧ (∀ (table : List JobRequestRow) (jobId sid nid : String),
      (((table.filter fun r => r.job_id == jobId && r.student_id == sid).length = 1) →
          sendJobRequest table jobId sid nid = table)
      ∧ (((table.filter fun r => r.job_id == jobId && r.student_id == sid).length ≠ 1) →
          sendJobRequest table jobId sid nid
            = table ++ [⟨nid, jobId, sid, employerOfferMessage, ("pending")⟩]))
    ∧ (∀ (table : List JobRequestRow) (uid jobId nid : String),
      handleApplyJobEarly table uid jobId nid
        = table ++ [⟨nid, jobId, uid, earlyApplyMessage, ("pending")⟩]) := by
  refine ⟨?_, ?_, fun table uid jobId nid => rfl⟩
  · intro cached table uid jobId nid
    constructor
    · rintro ⟨r, hr, hid⟩
      have hsome : (cached.find? fun req => req.job_id == jobId).isSome :=
        List.find?_isSome.mpr ⟨r, hr, by simp [hid]⟩
      obtain ⟨v, hv⟩ := Option.isSome_iff_exists.mp hsome
      simp [handleApplyJob, hv]
    · intro h
      have hnone : (cached.find? fun req => req.job_id == jobId) = none :=
        List.find?_eq_none.mpr fun x hx hbeq => h ⟨x, hx, by simpa using hbeq⟩
      simp [handleApplyJob, hnone]
  · intro table jobId sid nid
    rcases hf : table.filter fun r => r.job_id == jobId && r.student_id == sid with
      _ | ⟨a, _ | ⟨b, t⟩⟩
    · exact ⟨fun h1 => absurd (hf ▸ h1) (by simp),
        fun _ => by simp [sendJobRequest, singleRead, hf]⟩
    · exact ⟨fun _ => by simp [sendJobRequest, singleRead, hf],
        fun h1 => absurd (hf ▸ h1) (by simp)⟩
    · exact ⟨fun h1 => absurd (hf ▸ h1) (by simp),
        fun _ => by simp [sendJobRequest, singleRead, hf]⟩

/-- Claim C4, amended, witness at concrete instances of the operations,
including the exactly-one duplicate guard and the empty-table insert. -/
theorem createRequest_guard_witness :
    handleApplyJob [reqJ1] [reqJ1] ("s1") ("j1") ("r2") = [reqJ1]
    ∧ handleApplyJob [] [] ("s1") ("j1") ("r2")
        = [⟨("r2"), ("j1"), ("s1"), studentApplyMessage, ("pending")⟩]
    ∧ sendJobRequest [reqJ1] ("j1") ("s1") ("r2") = [reqJ1]
    ∧ sendJobRequest [] ("j1") ("s1") ("r2")
        = [⟨("r2"), ("j1"), ("s1"), employerOfferMessage, ("pending")⟩] := by
  refine ⟨?_, ?_, ?_, ?_⟩
  · exact (createRequest_guard.1 [reqJ1] [reqJ1] ("s1") ("j1") ("r2")).1
      ⟨reqJ1, by decide, by decide⟩
  · exact (createRequest_guard.1 [] [] ("s1") ("j1") ("r2")).2 (by decide)
  · exact (createRequest_guard.2.1 [reqJ1] ("j1") ("s1") ("r2")).1 (by decide)
  · exact (createRequest_guard.2.1 [] ("j1") ("s1") ("r2")).2 (by decide)

/-- Claim C6: deleting a job removes every job_skills row of that job, removes
the job row itself when the caller owns it, leaves the whole job_requests
table unchanged (requests referencing the job dangle), keeps every job_skills
row of other jobs, and keeps every job row that is not the owned addressed
one. -/
theorem deleteJob_effects (uid jobId : String) (db : MarketDB) :
    ((handleDeleteJob uid jobId db).job_requests = db.job_requests)
    ∧ (∀ l ∈ db.job_skills, l.job_id = jobId →
        l ∉ (handleDeleteJob uid jobId db).job_skills)
    ∧ (∀ l ∈ db.job_skills, l.job_id ≠ jobId →
        l ∈ (handleDeleteJob uid jobId db).job_skills)
    ∧ (∀ j ∈ db.jobs, j.id = jobId → j.employer_id = uid →
        j ∉ (handleDeleteJob uid jobId db).jobs)
    ∧ (∀ j ∈ db.jobs, ¬(j.id = jobId ∧ j.employer_id = uid) →
        j ∈ (handleDeleteJob uid jobId db).jobs) := by
  refine ⟨rfl, ?_, ?_, ?_, ?_⟩
  · intro l hl heq
    simp [handleDeleteJob, List.mem_filter, heq]
  · intro l hl hne
    simp [handleDeleteJob, List.mem_filter, hl, hne]
  · intro j hj h1 h2
    simp [handleDeleteJob, List.mem_filter, h1, h2]
  · intro j hj h
    simp only [handleDeleteJob, List.mem_filter]
    refine ⟨hj, ?_⟩
    rcases not_and_or.mp h with h1 | h1 <;> simp [h1]

/-- The deletion scenario database for the C6 witness: one job with two skill
links and one pending request, plus an unrelated job with its own link. -/
def db6 : MarketDB :=
  { jobs := [⟨("j1"), ("e1"), ("active")⟩, ⟨("j2"), ("e2"), ("active")⟩],
    job_skills := [⟨("j1"), ("k1")⟩, ⟨("j1"), ("k2")⟩, ⟨("j2"), ("k1")⟩],
    job_requests := [⟨("r1"), ("j1"), ("s1"), ("m"), ("pending")⟩] }

/-- Claim C6, witness at the concrete deletion scenario. -/
theorem deleteJob_effects_witness :
    (handleDeleteJob ("e1") ("j1") db6).job_requests = db6.job_requests
    ∧ (⟨("j1"), ("k1")⟩ : JobSkillRow) ∉ (handleDeleteJob ("e1") ("j1") db6).job_skills
    ∧ (⟨("j2"), ("k1")⟩ : JobSkillRow) ∈ (handleDeleteJob ("e1") ("j1") db6).job_skills
    ∧ (⟨("j1"), ("e1"), ("active")⟩ : JobRow) ∉ (handleDeleteJob ("e1") ("j1") db6).jobs
    ∧ (⟨("j2"), ("e2"), ("active")⟩ : JobRow) ∈ (handleDeleteJob ("e1") ("j1") db6).jobs := by
  obtain ⟨h1, h2, h3, h4, h5⟩ := deleteJob_effects ("e1") ("j1") db6
  exact ⟨h1, h2 _ (by decide) (by decide), h3 _ (by decide) (by decide),
    h4 _ (by decide) (by decide) (by decide), h5 _ (by decide) (by decide)⟩

/-- Claim C7: when a later step of handleSubmit fails after the profiles
insert succeeded, the already inserted profiles row persists (no rollback),
the failed table is unchanged, and only an error is reported.  Stated for the
student-profile step failing, the student-skills step failing, and the
employer-profile step failing. -/
theorem partial_profile_persists :
    (∀ (db : OnboardDB) (uid : String) (pd : ProfileData) (sel : List String)
        (cat : List SkillRow),
      mkProfileRow uid ("student") pd ∈
        (handleSubmit db uid ("student") pd sel cat ⟨false, true, false, false, false⟩).db.profiles
      ∧ (handleSubmit db uid ("student") pd sel cat ⟨false, true, false, false, false⟩).db.student_profiles
          = db.student_profiles
      ∧ (handleSubmit db uid ("student") pd sel cat ⟨false, true, false, false, false⟩).completed = false
      ∧ (handleSubmit db uid ("student") pd sel cat ⟨false, true, false, false, false⟩).errorShown = true)
    ∧ (∀ (db : OnboardDB) (uid : String) (pd : ProfileData) (s : String)
        (rest : List String) (cat : List SkillRow),
      mkProfileRow uid ("student") pd ∈
        (handleSubmit db uid ("student") pd (s :: rest) cat ⟨false, false, false, true, false⟩).db.profiles
      ∧ (handleSubmit db uid ("student") pd (s :: rest) cat ⟨false, false, false, true, false⟩).db.student_skills
          = db.student_skills
      ∧ (handleSubmit db uid ("student") pd (s :: rest) cat ⟨false, false, false, true, false⟩).errorShown = true)
    ∧ (∀ (db : OnboardDB) (uid : String) (pd : ProfileData) (sel : List String)
        (cat : List SkillRow),
      mkProfileRow uid ("employer") pd ∈
        (handleSubmit db uid ("employer") pd sel cat ⟨false, false, false, false, true⟩).db.profiles
      ∧ (handleSubmit db uid ("employer") pd sel cat ⟨false, false, false, false, true⟩).db.employer_profiles
          = db.employer_profiles
      ∧ (handleSubmit db uid ("employer") pd sel cat ⟨false, false, false, false, true⟩).errorShown = true) := by
  refine ⟨?_, ?_, ?_⟩
  · intro db uid pd sel cat
    refine ⟨?_, rfl, rfl, rfl⟩
    simp [handleSubmit]
  · intro db uid pd s rest cat
    refine ⟨?_, ?_, ?_⟩ <;> simp [handleSubmit]
  · intro db uid pd sel cat
    refine ⟨?_, rfl, rfl⟩
    simp [handleSubmit]

end Udyoga
